import Mathlib

/-!
# ILI9488 display driver: command catalog, colour constants and the
# preclipped rectangle fill

Shallow embedding of `ILI9488.h`.  The header defines the panel
dimensions, the opcode catalog, the RGB565 colour constants and one inline
member function, `writeFillRectPreclipped`.  The other member functions are
only declared there; where a statement needs their behaviour it is modelled
from the design specification and marked as such.

Machine integers are `Int`/`Nat` with explicit reduction modulo `2^16` or
`2^32` at every conversion the C++ source performs.
-/

namespace ILI9488

/-! ## Panel dimensions (lines 32-33) -/

def ILI9488_TFTWIDTH : Nat := 320
def ILI9488_TFTHEIGHT : Nat := 480

/-! ## Command catalog (lines 35-88) -/

def ILI9488_NOP : Nat := 0x00
def ILI9488_SWRESET : Nat := 0x01
def ILI9488_RDDID : Nat := 0x04
def ILI9488_RDDST : Nat := 0x09

def ILI9488_SLPIN : Nat := 0x10
def ILI9488_SLPOUT : Nat := 0x11
def ILI9488_PTLON : Nat := 0x12
def ILI9488_NORON : Nat := 0x13

def ILI9488_RDMODE : Nat := 0x0A
def ILI9488_RDMADCTL : Nat := 0x0B
def ILI9488_RDPIXFMT : Nat := 0x0C
def ILI9488_RDIMGFMT : Nat := 0x0D
def ILI9488_RDSELFDIAG : Nat := 0x0F

def ILI9488_INVOFF : Nat := 0x20
def ILI9488_INVON : Nat := 0x21
def ILI9488_GAMMASET : Nat := 0x26
def ILI9488_DISPOFF : Nat := 0x28
def ILI9488_DISPON : Nat := 0x29

def ILI9488_CASET : Nat := 0x2A
def ILI9488_PASET : Nat := 0x2B
def ILI9488_RAMWR : Nat := 0x2C
def ILI9488_RAMRD : Nat := 0x2E

def ILI9488_PTLAR : Nat := 0x30
def ILI9488_VSCRDEF : Nat := 0x33
def ILI9488_MADCTL : Nat := 0x36
def ILI9488_VSCRSADD : Nat := 0x37
def ILI9488_PIXFMT : Nat := 0x3A

def ILI9488_FRMCTR1 : Nat := 0xB1
def ILI9488_FRMCTR2 : Nat := 0xB2
def ILI9488_FRMCTR3 : Nat := 0xB3
def ILI9488_INVCTR : Nat := 0xB4
def ILI9488_DFUNCTR : Nat := 0xB6

def ILI9488_PWCTR1 : Nat := 0xC0
def ILI9488_PWCTR2 : Nat := 0xC1
def ILI9488_PWCTR3 : Nat := 0xC2
def ILI9488_PWCTR4 : Nat := 0xC3
def ILI9488_PWCTR5 : Nat := 0xC4
def ILI9488_VMCTR1 : Nat := 0xC5
def ILI9488_VMCTR2 : Nat := 0xC7

def ILI9488_RDID1 : Nat := 0xDA
def ILI9488_RDID2 : Nat := 0xDB
def ILI9488_RDID3 : Nat := 0xDC
def ILI9488_RDID4 : Nat := 0xDD

def ILI9488_GMCTRP1 : Nat := 0xE0
def ILI9488_GMCTRN1 : Nat := 0xE1

/-- The named opcodes of the header, in the order the header defines them
(`ILI9488_NOP` through `ILI9488_GMCTRN1`; the commented-out `PWCTR6` is not
part of the catalog). -/
def commandCatalog : List Nat :=
  [ ILI9488_NOP, ILI9488_SWRESET, ILI9488_RDDID, ILI9488_RDDST,
    ILI9488_SLPIN, ILI9488_SLPOUT, ILI9488_PTLON, ILI9488_NORON,
    ILI9488_RDMODE, ILI9488_RDMADCTL, ILI9488_RDPIXFMT, ILI9488_RDIMGFMT,
    ILI9488_RDSELFDIAG,
    ILI9488_INVOFF, ILI9488_INVON, ILI9488_GAMMASET, ILI9488_DISPOFF,
    ILI9488_DISPON,
    ILI9488_CASET, ILI9488_PASET, ILI9488_RAMWR, ILI9488_RAMRD,
    ILI9488_PTLAR, ILI9488_VSCRDEF, ILI9488_MADCTL, ILI9488_VSCRSADD,
    ILI9488_PIXFMT,
    ILI9488_FRMCTR1, ILI9488_FRMCTR2, ILI9488_FRMCTR3, ILI9488_INVCTR,
    ILI9488_DFUNCTR,
    ILI9488_PWCTR1, ILI9488_PWCTR2, ILI9488_PWCTR3, ILI9488_PWCTR4,
    ILI9488_PWCTR5, ILI9488_VMCTR1, ILI9488_VMCTR2,
    ILI9488_RDID1, ILI9488_RDID2, ILI9488_RDID3, ILI9488_RDID4,
    ILI9488_GMCTRP1, ILI9488_GMCTRN1 ]

/-! ## Colour constants (lines 91-110) -/

def ILI9488_BLACK : Nat := 0x0000
def ILI9488_NAVY : Nat := 0x000F
def ILI9488_DARKGREEN : Nat := 0x03E0
def ILI9488_DARKCYAN : Nat := 0x03EF
def ILI9488_MAROON : Nat := 0x7800
def ILI9488_PURPLE : Nat := 0x780F
def ILI9488_OLIVE : Nat := 0x7BE0
def ILI9488_LIGHTGREY : Nat := 0xC618
def ILI9488_DARKGREY : Nat := 0x7BEF
def ILI9488_BLUE : Nat := 0x001F
def ILI9488_GREEN : Nat := 0x07E0
def ILI9488_CYAN : Nat := 0x07FF
def ILI9488_RED : Nat := 0xF800
def ILI9488_MAGENTA : Nat := 0xF81F
def ILI9488_YELLOW : Nat := 0xFFE0
def ILI9488_WHITE : Nat := 0xFFFF
def ILI9488_ORANGE : Nat := 0xFD20
def ILI9488_GREENYELLOW : Nat := 0xAFE5
def ILI9488_PINK : Nat := 0xFC18

/-- One row of the colour table: the constant's value and the 8-bit
`(R, G, B)` triple written in the comment beside it. -/
structure ColorEntry where
  value : Nat
  r : Nat
  g : Nat
  b : Nat
deriving DecidableEq, Repr

/-- The colour definitions with their documented triples, in header order. -/
def colorTable : List ColorEntry :=
  [ ⟨ILI9488_BLACK, 0, 0, 0⟩,
    ⟨ILI9488_NAVY, 0, 0, 123⟩,
    ⟨ILI9488_DARKGREEN, 0, 125, 0⟩,
    ⟨ILI9488_DARKCYAN, 0, 125, 123⟩,
    ⟨ILI9488_MAROON, 123, 0, 0⟩,
    ⟨ILI9488_PURPLE, 123, 0, 123⟩,
    ⟨ILI9488_OLIVE, 123, 125, 0⟩,
    ⟨ILI9488_LIGHTGREY, 198, 195, 198⟩,
    ⟨ILI9488_DARKGREY, 123, 125, 123⟩,
    ⟨ILI9488_BLUE, 0, 0, 255⟩,
    ⟨ILI9488_GREEN, 0, 255, 0⟩,
    ⟨ILI9488_CYAN, 0, 255, 255⟩,
    ⟨ILI9488_RED, 255, 0, 0⟩,
    ⟨ILI9488_MAGENTA, 255, 0, 255⟩,
    ⟨ILI9488_YELLOW, 255, 255, 0⟩,
    ⟨ILI9488_WHITE, 255, 255, 255⟩,
    ⟨ILI9488_ORANGE, 255, 165, 0⟩,
    ⟨ILI9488_GREENYELLOW, 173, 255, 41⟩,
    ⟨ILI9488_PINK, 255, 130, 198⟩ ]

/-- RGB565 packing of an 8-bit triple:
`((R >> 3) << 11) | ((G >> 2) << 5) | (B >> 3)`. -/
def rgb565 (r g b : Nat) : Nat :=
  ((r >>> 3) <<< 11) ||| ((g >>> 2) <<< 5) ||| (b >>> 3)

/-! ## Integer conversions of the C++ source -/

/-- Range of `int16_t`. -/
def isInt16 (v : Int) : Prop := -32768 ≤ v ∧ v ≤ 32767

instance (v : Int) : Decidable (isInt16 v) := by
  unfold isInt16; infer_instance

/-- Conversion of a signed value to `uint16_t`: the implicit conversion at
the call `setAddrWindow(x, y, w, h)`, whose parameters are `uint16_t`. -/
def toUInt16 (v : Int) : Nat := (v % 65536).toNat

/-- Conversion of a signed value to `uint32_t`: the cast `(uint32_t)w`, and
the conversion of the promoted `h` to the type of the other operand. -/
def toUInt32 (v : Int) : Nat := (v % 4294967296).toNat

/-- Multiplication of two `uint32_t` values. -/
def mulUInt32 (a b : Nat) : Nat := (a * b) % 4294967296

/-! ## The inline member function (lines 140-143) -/

/-- Calls made to member functions that the header declares without a body.
Arguments are recorded at the parameter types of the callee: `uint16_t` for
the window and the colour, `uint32_t` for the length. -/
inductive Call where
  | setAddrWindow (x y w h : Nat)
  | writeColor (color len : Nat)
deriving DecidableEq, Repr

/-- The body of `writeFillRectPreclipped`:
`setAddrWindow(x, y, w, h); writeColor(color, (uint32_t)w * h);`
as the sequence of calls it makes. -/
def writeFillRectPreclipped (x y w h : Int) (color : Nat) : List Call :=
  [ Call.setAddrWindow (toUInt16 x) (toUInt16 y) (toUInt16 w) (toUInt16 h),
    Call.writeColor color (mulUInt32 (toUInt32 w) (toUInt32 h)) ]

/-- The window arguments of the `setAddrWindow` calls of a call sequence. -/
def windowArgs : List Call → List (Nat × Nat × Nat × Nat)
  | [] => []
  | Call.setAddrWindow x y w h :: cs => (x, y, w, h) :: windowArgs cs
  | Call.writeColor _ _ :: cs => windowArgs cs

/-- The length arguments of the `writeColor` calls of a call sequence. -/
def pixelCounts : List Call → List Nat
  | [] => []
  | Call.setAddrWindow _ _ _ _ :: cs => pixelCounts cs
  | Call.writeColor _ len :: cs => len :: pixelCounts cs

/-- Reading of a `uint16_t` bit pattern as the `int16_t` with the same
16 bits. -/
def toInt16 (n : Nat) : Int := if n < 32768 then (n : Int) else (n : Int) - 65536

/-- What the conversion to `uint16_t` does to a signed value `v`: the
received value `a` is `v` modulo `2^16`, which is `v` itself when `v` is
non-negative and `v + 65536` when `v` is negative. -/
def ArrivesAsUInt16 (v : Int) (a : Nat) : Prop :=
  (a : Int) = v % 65536 ∧ a < 65536 ∧
  (0 ≤ v → (a : Int) = v) ∧ (v < 0 → (a : Int) = v + 65536)

/-! ## Bus-level behaviour of the member functions without a body

`setAddrWindow`, `writeColor`, `writePixels`, `setRotation` and `begin` are
declared in the header (lines 130-146) and defined outside it.  The
definitions below follow the design specification, sections 4.2-4.4 and 6. -/

/-- Modelled from the spec: the operations of the bus collaborator (section
6): a command with its parameter bytes, one 16-bit pixel value in bus
order, and a settle delay in milliseconds. -/
inductive BusOp where
  | command (opcode : Nat) (params : List Nat)
  | data16 (value : Nat)
  | delay (ms : Nat)
deriving DecidableEq, Repr

/-- Modelled from the spec: a 16-bit value as two bytes, most significant
byte first ("big-endian 16-bit", section 4.4).  The value is taken modulo
`2^16`, as a `uint16_t` holds it. -/
def be16 (v : Nat) : List Nat := [v / 256 % 256, v % 256]

/-- Value of a most-significant-byte-first pair of bytes. -/
def decodeBE16 (hi lo : Nat) : Nat := hi * 256 + lo

/-- Modelled from the spec: the body of `setAddrWindow`, which the header
only declares.  Section 4.4: "issues column-address-set with parameters
(x, x+w-1) as two big-endian 16-bit values, then page-address-set with
(y, y+h-1), then memory-write opcode".  The spec states this for
`w, h ≥ 1`, where the subtraction is exact. -/
def setAddrWindow (x y w h : Nat) : List BusOp :=
  [ BusOp.command ILI9488_CASET (be16 x ++ be16 (x + w - 1)),
    BusOp.command ILI9488_PASET (be16 y ++ be16 (y + h - 1)),
    BusOp.command ILI9488_RAMWR [] ]

/-- Modelled from the spec: the body of `writeColor`, which the header
only declares.  Section 4.4: "streams the same 16-bit value `count` times without
a source buffer". -/
def writeColor (color len : Nat) : List BusOp :=
  List.replicate len (BusOp.data16 color)

/-- Modelled from the spec: the body of `begin` (the initialization
sequencer of section 4.2), which the header only declares and for which the
spec lists no byte values; the reset/init sequence it issues is the
parameter `initSeq`, and the speed hint does not change what is issued. -/
def begin (initSeq : List BusOp) (_freq : Nat) : List BusOp := initSeq

/-- Logical display state kept by the driver: the dimensions used for
clipping, the rotation index and the memory-access-control byte. -/
structure Display where
  width : Nat
  height : Nat
  rotation : Nat
  madctl : Nat
deriving DecidableEq, Repr

/-- Modelled from the spec: whether rotation `r` exchanges rows and
columns; section 4.3: "0/2 vs 1/3 produce transposed dimensions". -/
def exchangesRowsAndColumns (r : Nat) : Bool := r % 4 == 1 || r % 4 == 3

/-- Modelled from the spec: the body of `setRotation`, which the header
only declares.  Section 4.3: the argument is taken modulo 4; the
memory-access-control byte comes from a fixed lookup table indexed by the
rotation (the table is not given in the spec and is the parameter
`madctlTable`); the command is sent immediately; "also swaps the stored
logical width/height when the rotation exchanges rows and columns". -/
def setRotation (madctlTable : Nat → Nat) (r : Nat) (d : Display) :
    Display × List BusOp :=
  let rot := r % 4
  let m := madctlTable rot
  let d1 : Display :=
    if exchangesRowsAndColumns rot then
      { width := d.height, height := d.width, rotation := rot, madctl := m }
    else
      { width := d.width, height := d.height, rotation := rot, madctl := m }
  (d1, [BusOp.command ILI9488_MADCTL [m]])

/-- Modelled from the spec: the geometric inverse of a rotation (section 8:
"0↔0, 1↔3, 2↔2"). -/
def inverseRotation (r : Nat) : Nat := (4 - r % 4) % 4

/-- Swap the two bytes of every 16-bit colour of a byte buffer. -/
def swapPairs : List Nat → List Nat
  | a :: b :: rest => b :: a :: swapPairs rest
  | rest => rest

/-- Modelled from the spec: the body of `writePixels`, which the header
only declares.  Section 4.4: "streams `count` 16-bit colors from a caller-owned
buffer; if the source buffer's byte order does not match the bus's required
order, each pair of bytes is swapped before transmission".  The buffer is
the `uint8_t*` of the header, `len` counts colours, and the fixed byte
order the bus requires is the parameter `busBigEndian`.  The result is the
byte sequence put on the bus; `block` only selects whether the call waits
for the transfer. -/
def writePixels (busBigEndian : Bool) (colors : List Nat) (len : Nat)
    (_block : Bool) (bigEndian : Bool) : List Nat :=
  let src := colors.take (2 * len)
  if bigEndian = busBigEndian then src else swapPairs src

/-- Bus operations of one recorded call. -/
def runCall : Call → List BusOp
  | Call.setAddrWindow x y w h => setAddrWindow x y w h
  | Call.writeColor color len => writeColor color len

/-- Bus operations of a sequence of recorded calls. -/
def runCalls : List Call → List BusOp
  | [] => []
  | c :: cs => runCall c ++ runCalls cs

/-- The scenario of section 8: `initialize()`, then `setRotation(0)`, then
`writeFillRectPreclipped(0, 0, 320, 480, 0xFFFF)`, as the bus operations
issued. -/
def fillScreenScenario (initSeq : List BusOp) (madctlTable : Nat → Nat)
    (d : Display) : List BusOp :=
  begin initSeq 0 ++ (setRotation madctlTable 0 d).2
    ++ runCalls (writeFillRectPreclipped 0 0 320 480 0xFFFF)

/-! ## Arithmetic of the conversions -/

theorem toUInt16_lt (v : Int) : toUInt16 v < 65536 := by
  unfold toUInt16
  omega

theorem toUInt16_cast (v : Int) : ((toUInt16 v : Nat) : Int) = v % 65536 := by
  unfold toUInt16
  omega

theorem toUInt16_of_nonneg (v : Int) (hv : isInt16 v) (h0 : 0 ≤ v) :
    ((toUInt16 v : Nat) : Int) = v := by
  unfold isInt16 at hv
  unfold toUInt16
  omega

theorem toUInt16_of_neg (v : Int) (hv : isInt16 v) (h0 : v < 0) :
    ((toUInt16 v : Nat) : Int) = v + 65536 := by
  unfold isInt16 at hv
  unfold toUInt16
  omega

theorem toInt16_toUInt16 (v : Int) (hv : isInt16 v) : toInt16 (toUInt16 v) = v := by
  unfold isInt16 at hv
  unfold toInt16 toUInt16
  split <;> omega

theorem arrivesAsUInt16_toUInt16 (v : Int) (hv : isInt16 v) :
    ArrivesAsUInt16 v (toUInt16 v) :=
  ⟨toUInt16_cast v, toUInt16_lt v, toUInt16_of_nonneg v hv, toUInt16_of_neg v hv⟩

theorem toUInt32_cast (v : Int) : ((toUInt32 v : Nat) : Int) = v % 4294967296 := by
  unfold toUInt32
  omega

/-- The product of the two converted operands, reduced modulo `2^32`, is the
mathematical product reduced modulo `2^32`. -/
theorem mulUInt32_toUInt32 (w h : Int) :
    mulUInt32 (toUInt32 w) (toUInt32 h) = toUInt32 (w * h) := by
  have key : ((mulUInt32 (toUInt32 w) (toUInt32 h) : Nat) : Int)
      = ((toUInt32 (w * h) : Nat) : Int) := by
    rw [toUInt32_cast]
    unfold mulUInt32
    push_cast
    rw [toUInt32_cast, toUInt32_cast]
    exact (Int.mul_emod w h 4294967296).symm
  exact_mod_cast key

theorem mul_int16_nonneg_lt (w h : Int) (hw : isInt16 w) (hh : isInt16 h)
    (hw0 : 0 ≤ w) (hh0 : 0 ≤ h) : 0 ≤ w * h ∧ w * h < 4294967296 := by
  unfold isInt16 at hw hh
  constructor
  · exact mul_nonneg hw0 hh0
  · have h1 : w * h ≤ 32767 * 32767 := mul_le_mul hw.2 hh.2 hh0 (by norm_num)
    omega

theorem toUInt32_mul_of_nonneg (w h : Int) (hw : isInt16 w) (hh : isInt16 h)
    (hw0 : 0 ≤ w) (hh0 : 0 ≤ h) : ((toUInt32 (w * h) : Nat) : Int) = w * h := by
  obtain ⟨h1, h2⟩ := mul_int16_nonneg_lt w h hw hh hw0 hh0
  rw [toUInt32_cast]
  exact Int.emod_eq_of_lt h1 h2

/-! ## The preclipped fill -/

/-- The call sequence with the product written as one conversion of the
mathematical product. -/
theorem writeFillRectPreclipped_eq (x y w h : Int) (color : Nat) :
    writeFillRectPreclipped x y w h color =
      [ Call.setAddrWindow (toUInt16 x) (toUInt16 y) (toUInt16 w) (toUInt16 h),
        Call.writeColor color (toUInt32 (w * h)) ] := by
  unfold writeFillRectPreclipped
  rw [mulUInt32_toUInt32]

/-- C1: for every `x`, `y`, `w`, `h` and every colour,
`writeFillRectPreclipped(x, y, w, h, color)` makes exactly two calls, in this
order and nothing else: `setAddrWindow(x, y, w, h)` (the arguments converted
to the `uint16_t` parameters), then `writeColor(color, w*h)` (the product as
the `uint32_t` that `writeColor` takes). -/
theorem writeFillRectPreclipped_two_calls (x y w h : Int) (color : Nat) :
    writeFillRectPreclipped x y w h color =
      [ Call.setAddrWindow (toUInt16 x) (toUInt16 y) (toUInt16 w) (toUInt16 h),
        Call.writeColor color (toUInt32 (w * h)) ] :=
  writeFillRectPreclipped_eq x y w h color

/-- C2: `writeFillRectPreclipped` has no bounds check and no clipping.  For
every `int16_t` rectangle the call is made (two calls, never rejected), the
window arguments handed to `setAddrWindow` carry the same 16-bit values as
`x`, `y`, `w`, `h`, and for non-negative `w`, `h` the pixel count is the full
product `w*h`, whatever the panel size; for `w = 400`, `h = 500` the window
is `(0, 0, 400, 500)` and the count is 200000, above the 153600 pixels of
the 320x480 panel. -/
theorem writeFillRectPreclipped_no_clipping (x y w h : Int) (color : Nat)
    (hx : isInt16 x) (hy : isInt16 y) (hw : isInt16 w) (hh : isInt16 h) :
    (∃ a b c d n,
        writeFillRectPreclipped x y w h color
          = [Call.setAddrWindow a b c d, Call.writeColor color n]
        ∧ toInt16 a = x ∧ toInt16 b = y ∧ toInt16 c = w ∧ toInt16 d = h
        ∧ (0 ≤ x → (a : Int) = x) ∧ (0 ≤ y → (b : Int) = y)
        ∧ (0 ≤ w → (c : Int) = w) ∧ (0 ≤ h → (d : Int) = h)
        ∧ (0 ≤ w → 0 ≤ h → (n : Int) = w * h))
    ∧ writeFillRectPreclipped 0 0 400 500 color
        = [Call.setAddrWindow 0 0 400 500, Call.writeColor color 200000]
    ∧ ILI9488_TFTWIDTH * ILI9488_TFTHEIGHT = 153600
    ∧ ILI9488_TFTWIDTH < 400 ∧ ILI9488_TFTHEIGHT < 500
    ∧ ILI9488_TFTWIDTH * ILI9488_TFTHEIGHT < 200000 := by
  refine ⟨⟨toUInt16 x, toUInt16 y, toUInt16 w, toUInt16 h, toUInt32 (w * h),
    ?_, toInt16_toUInt16 x hx, toInt16_toUInt16 y hy, toInt16_toUInt16 w hw,
    toInt16_toUInt16 h hh, toUInt16_of_nonneg x hx, toUInt16_of_nonneg y hy,
    toUInt16_of_nonneg w hw, toUInt16_of_nonneg h hh,
    toUInt32_mul_of_nonneg w h hw hh⟩, ?_, by decide, by decide, by decide, by decide⟩
  · exact writeFillRectPreclipped_eq x y w h color
  · rw [writeFillRectPreclipped_eq]
    have e1 : toUInt16 0 = 0 := by decide
    have e2 : toUInt16 400 = 400 := by decide
    have e3 : toUInt16 500 = 500 := by decide
    have e4 : toUInt32 (400 * 500) = 200000 := by decide
    rw [e1, e2, e3, e4]

theorem writeFillRectPreclipped_no_clipping_witness :
    isInt16 (-5) ∧ isInt16 300 ∧ isInt16 400 ∧ isInt16 500 ∧
    ((∃ a b c d n,
        writeFillRectPreclipped (-5) 300 400 500 0xF800
          = [Call.setAddrWindow a b c d, Call.writeColor 0xF800 n]
        ∧ toInt16 a = -5 ∧ toInt16 b = 300 ∧ toInt16 c = 400 ∧ toInt16 d = 500
        ∧ (0 ≤ (-5 : Int) → (a : Int) = -5) ∧ (0 ≤ (300 : Int) → (b : Int) = 300)
        ∧ (0 ≤ (400 : Int) → (c : Int) = 400) ∧ (0 ≤ (500 : Int) → (d : Int) = 500)
        ∧ (0 ≤ (400 : Int) → 0 ≤ (500 : Int) → (n : Int) = 400 * 500))
    ∧ writeFillRectPreclipped 0 0 400 500 0xF800
        = [Call.setAddrWindow 0 0 400 500, Call.writeColor 0xF800 200000]
    ∧ ILI9488_TFTWIDTH * ILI9488_TFTHEIGHT = 153600
    ∧ ILI9488_TFTWIDTH < 400 ∧ ILI9488_TFTHEIGHT < 500
    ∧ ILI9488_TFTWIDTH * ILI9488_TFTHEIGHT < 200000) :=
  ⟨by decide, by decide, by decide, by decide,
    writeFillRectPreclipped_no_clipping (-5) 300 400 500 0xF800
      (by decide) (by decide) (by decide) (by decide)⟩

/-- C8: the pixel count that `writeFillRectPreclipped` passes to `writeColor`
is `(w*h) mod 2^32`.  For `0 ≤ w, h ≤ 32767` it is the exact product, below
`2^32`, with no wraparound (320*480 gives 153600, above 65535); a negative
`w` or `h` wraps instead of failing (`w = -1, h = 1` gives 4294967295;
`w = -1, h = -1` gives 1). -/
theorem writeFillRectPreclipped_pixel_count (x y w h : Int) (color : Nat)
    (hw : isInt16 w) (hh : isInt16 h) :
    pixelCounts (writeFillRectPreclipped x y w h color)
        = [((w * h) % 4294967296).toNat]
    ∧ (0 ≤ w → 0 ≤ h →
        pixelCounts (writeFillRectPreclipped x y w h color) = [(w * h).toNat]
        ∧ 0 ≤ w * h ∧ w * h < 4294967296)
    ∧ pixelCounts (writeFillRectPreclipped x y 320 480 color) = [153600]
    ∧ 65535 < 153600
    ∧ pixelCounts (writeFillRectPreclipped x y (-1) 1 color) = [4294967295]
    ∧ pixelCounts (writeFillRectPreclipped x y (-1) (-1) color) = [1] := by
  have gen : ∀ a b : Int, pixelCounts (writeFillRectPreclipped x y a b color)
      = [((a * b) % 4294967296).toNat] := by
    intro a b
    rw [writeFillRectPreclipped_eq]
    rfl
  refine ⟨gen w h, ?_, ?_, by decide, ?_, ?_⟩
  · intro hw0 hh0
    obtain ⟨h1, h2⟩ := mul_int16_nonneg_lt w h hw hh hw0 hh0
    refine ⟨?_, h1, h2⟩
    rw [gen w h, Int.emod_eq_of_lt h1 h2]
  · rw [gen]; decide
  · rw [gen]; decide
  · rw [gen]; decide

theorem writeFillRectPreclipped_pixel_count_witness :
    isInt16 32767 ∧ isInt16 32767 ∧
    (pixelCounts (writeFillRectPreclipped 7 9 32767 32767 0x001F)
        = [(((32767 : Int) * 32767) % 4294967296).toNat]
    ∧ (0 ≤ (32767 : Int) → 0 ≤ (32767 : Int) →
        pixelCounts (writeFillRectPreclipped 7 9 32767 32767 0x001F)
          = [((32767 : Int) * 32767).toNat]
        ∧ 0 ≤ (32767 : Int) * 32767 ∧ (32767 : Int) * 32767 < 4294967296)
    ∧ pixelCounts (writeFillRectPreclipped 7 9 320 480 0x001F) = [153600]
    ∧ 65535 < 153600
    ∧ pixelCounts (writeFillRectPreclipped 7 9 (-1) 1 0x001F) = [4294967295]
    ∧ pixelCounts (writeFillRectPreclipped 7 9 (-1) (-1) 0x001F) = [1]) :=
  ⟨by decide, by decide,
    writeFillRectPreclipped_pixel_count 7 9 32767 32767 0x001F (by decide) (by decide)⟩

/-- C10: `writeFillRectPreclipped` takes `int16_t` `x`, `y`, `w`, `h` and
`setAddrWindow` takes `uint16_t` parameters, so each argument reaches
`setAddrWindow` as its value modulo `2^16`: a non-negative value unchanged,
a negative value `v` as `v + 65536` (`x = -1` arrives as 65535). -/
theorem writeFillRectPreclipped_window_args (x y w h : Int) (color : Nat)
    (hx : isInt16 x) (hy : isInt16 y) (hw : isInt16 w) (hh : isInt16 h) :
    (∃ a b c d,
        windowArgs (writeFillRectPreclipped x y w h color) = [(a, b, c, d)]
        ∧ ArrivesAsUInt16 x a ∧ ArrivesAsUInt16 y b
        ∧ ArrivesAsUInt16 w c ∧ ArrivesAsUInt16 h d)
    ∧ windowArgs (writeFillRectPreclipped (-1) y w h color)
        = [(65535, toUInt16 y, toUInt16 w, toUInt16 h)] := by
  refine ⟨⟨toUInt16 x, toUInt16 y, toUInt16 w, toUInt16 h, rfl,
    arrivesAsUInt16_toUInt16 x hx, arrivesAsUInt16_toUInt16 y hy,
    arrivesAsUInt16_toUInt16 w hw, arrivesAsUInt16_toUInt16 h hh⟩, rfl⟩

theorem writeFillRectPreclipped_window_args_witness :
    isInt16 (-1) ∧ isInt16 20 ∧ isInt16 (-32768) ∧ isInt16 32767 ∧
    ((∃ a b c d,
        windowArgs (writeFillRectPreclipped (-1) 20 (-32768) 32767 0) = [(a, b, c, d)]
        ∧ ArrivesAsUInt16 (-1) a ∧ ArrivesAsUInt16 20 b
        ∧ ArrivesAsUInt16 (-32768) c ∧ ArrivesAsUInt16 32767 d)
    ∧ windowArgs (writeFillRectPreclipped (-1) 20 (-32768) 32767 0)
        = [(65535, toUInt16 20, toUInt16 (-32768), toUInt16 32767)]) :=
  ⟨by decide, by decide, by decide, by decide,
    writeFillRectPreclipped_window_args (-1) 20 (-32768) 32767 0
      (by decide) (by decide) (by decide) (by decide)⟩

/-! ## Constants -/

/-- C7: every colour constant, `ILI9488_BLACK` through `ILI9488_PINK`, is a
16-bit value equal to the RGB565 packing
`((R >> 3) << 11) | ((G >> 2) << 5) | (B >> 3)` of the 8-bit triple
documented beside it; `ILI9488_ORANGE` is `0xFD20` for `(255, 165, 0)` and
`ILI9488_LIGHTGREY` is `0xC618` for `(198, 195, 198)`. -/
theorem color_constants_are_rgb565 :
    (∀ e ∈ colorTable,
        e.value = rgb565 e.r e.g e.b ∧ e.value < 65536
        ∧ e.r < 256 ∧ e.g < 256 ∧ e.b < 256)
    ∧ colorTable.length = 19
    ∧ ILI9488_ORANGE = 0xFD20 ∧ rgb565 255 165 0 = ILI9488_ORANGE
    ∧ ILI9488_LIGHTGREY = 0xC618 ∧ rgb565 198 195 198 = ILI9488_LIGHTGREY := by
  decide

/-- C9: the named opcodes `ILI9488_NOP` through `ILI9488_GMCTRN1` are
pairwise distinct and each fits in one byte; in particular inversion-on
(`0x21`) and inversion-off (`0x20`) are distinct. -/
theorem command_catalog_distinct_bytes :
    commandCatalog.Nodup
    ∧ (∀ op ∈ commandCatalog, op ≤ 255)
    ∧ commandCatalog.length = 45
    ∧ ILI9488_INVON = 0x21 ∧ ILI9488_INVOFF = 0x20
    ∧ ILI9488_INVON ∈ commandCatalog ∧ ILI9488_INVOFF ∈ commandCatalog
    ∧ ILI9488_INVON ≠ ILI9488_INVOFF := by
  decide

/-! ## Address window, rotation and pixel streaming -/

theorem be16_bytes (v : Nat) : ∀ b ∈ be16 v, b < 256 := by
  intro b hb
  simp only [be16, List.mem_cons, List.mem_singleton, List.not_mem_nil, or_false] at hb
  rcases hb with rfl | rfl <;> omega

theorem decodeBE16_be16 (v : Nat) : decodeBE16 (v / 256 % 256) (v % 256) = v % 65536 := by
  unfold decodeBE16
  omega

/-- C4: for every `uint16_t` `x`, `y` and every `w, h ≥ 1`,
`setAddrWindow(x, y, w, h)` emits the column-address-set command (`0x2A`)
with parameters `(x, x+w-1)`, then the page-address-set command (`0x2B`)
with parameters `(y, y+h-1)`, each parameter as two bytes, most significant
first, then the memory-write command (`0x2C`).  The four bytes of each
command decode to `x` and to `x+w-1` (resp. `y`, `y+h-1`) as 16-bit values,
exactly `x+w-1` whenever that fits in 16 bits. -/
theorem setAddrWindow_emits (x y w h : Nat)
    (hx : x < 65536) (hy : y < 65536) (hw : w < 65536) (hh : h < 65536)
    (hw1 : 1 ≤ w) (hh1 : 1 ≤ h) :
    ∃ x1h x1l x2h x2l y1h y1l y2h y2l : Nat,
      setAddrWindow x y w h =
        [ BusOp.command 0x2A [x1h, x1l, x2h, x2l],
          BusOp.command 0x2B [y1h, y1l, y2h, y2l],
          BusOp.command 0x2C [] ]
      ∧ (x1h < 256 ∧ x1l < 256 ∧ x2h < 256 ∧ x2l < 256)
      ∧ (y1h < 256 ∧ y1l < 256 ∧ y2h < 256 ∧ y2l < 256)
      ∧ decodeBE16 x1h x1l = x
      ∧ ((decodeBE16 x2h x2l : Nat) : Int) = ((x : Int) + w - 1) % 65536
      ∧ (x + w - 1 < 65536 → decodeBE16 x2h x2l = x + w - 1)
      ∧ decodeBE16 y1h y1l = y
      ∧ ((decodeBE16 y2h y2l : Nat) : Int) = ((y : Int) + h - 1) % 65536
      ∧ (y + h - 1 < 65536 → decodeBE16 y2h y2l = y + h - 1) := by
  refine ⟨x / 256 % 256, x % 256, (x + w - 1) / 256 % 256, (x + w - 1) % 256,
    y / 256 % 256, y % 256, (y + h - 1) / 256 % 256, (y + h - 1) % 256,
    rfl, ?_, ?_, ?_, ?_, ?_, ?_, ?_, ?_⟩
  · refine ⟨?_, ?_, ?_, ?_⟩ <;> omega
  · refine ⟨?_, ?_, ?_, ?_⟩ <;> omega
  · rw [decodeBE16_be16]; omega
  · rw [decodeBE16_be16]; omega
  · intro hfit; rw [decodeBE16_be16]; omega
  · rw [decodeBE16_be16]; omega
  · rw [decodeBE16_be16]; omega
  · intro hfit; rw [decodeBE16_be16]; omega

theorem setAddrWindow_emits_witness :
    (10 : Nat) < 65536 ∧ (20 : Nat) < 65536 ∧ (300 : Nat) < 65536 ∧ (400 : Nat) < 65536
    ∧ 1 ≤ (300 : Nat) ∧ 1 ≤ (400 : Nat) ∧
    ∃ x1h x1l x2h x2l y1h y1l y2h y2l : Nat,
      setAddrWindow 10 20 300 400 =
        [ BusOp.command 0x2A [x1h, x1l, x2h, x2l],
          BusOp.command 0x2B [y1h, y1l, y2h, y2l],
          BusOp.command 0x2C [] ]
      ∧ (x1h < 256 ∧ x1l < 256 ∧ x2h < 256 ∧ x2l < 256)
      ∧ (y1h < 256 ∧ y1l < 256 ∧ y2h < 256 ∧ y2l < 256)
      ∧ decodeBE16 x1h x1l = 10
      ∧ ((decodeBE16 x2h x2l : Nat) : Int) = (((10 : Nat) : Int) + (300 : Nat) - 1) % 65536
      ∧ (10 + 300 - 1 < 65536 → decodeBE16 x2h x2l = 10 + 300 - 1)
      ∧ decodeBE16 y1h y1l = 20
      ∧ ((decodeBE16 y2h y2l : Nat) : Int) = (((20 : Nat) : Int) + (400 : Nat) - 1) % 65536
      ∧ (20 + 400 - 1 < 65536 → decodeBE16 y2h y2l = 20 + 400 - 1) :=
  ⟨by decide, by decide, by decide, by decide, by decide, by decide,
    setAddrWindow_emits 10 20 300 400 (by decide) (by decide) (by decide) (by decide)
      (by decide) (by decide)⟩

/-- C5: for every rotation `r` in `{0, 1, 2, 3}`, `setRotation(r)` followed
by `setRotation` of the geometric inverse of `r` (0 with 0, 1 with 3, 2 with
2) leaves the logical width and height the display had before the first
call. -/
theorem setRotation_inverse_restores (madctlTable : Nat → Nat) (r : Nat)
    (d : Display) (hr : r < 4) :
    (setRotation madctlTable (inverseRotation r) (setRotation madctlTable r d).1).1.width
        = d.width
    ∧ (setRotation madctlTable (inverseRotation r) (setRotation madctlTable r d).1).1.height
        = d.height
    ∧ inverseRotation 0 = 0 ∧ inverseRotation 1 = 3 ∧ inverseRotation 3 = 1
    ∧ inverseRotation 2 = 2 := by
  refine ⟨?_, ?_, by decide, by decide, by decide, by decide⟩
  · interval_cases r <;> simp [setRotation, inverseRotation, exchangesRowsAndColumns]
  · interval_cases r <;> simp [setRotation, inverseRotation, exchangesRowsAndColumns]

theorem setRotation_inverse_restores_witness :
    (1 : Nat) < 4 ∧
    ((setRotation (fun _ => 0x28) (inverseRotation 1)
        (setRotation (fun _ => 0x28) 1
          ⟨ILI9488_TFTWIDTH, ILI9488_TFTHEIGHT, 0, 0x48⟩).1).1.width
        = (⟨ILI9488_TFTWIDTH, ILI9488_TFTHEIGHT, 0, 0x48⟩ : Display).width
    ∧ (setRotation (fun _ => 0x28) (inverseRotation 1)
        (setRotation (fun _ => 0x28) 1
          ⟨ILI9488_TFTWIDTH, ILI9488_TFTHEIGHT, 0, 0x48⟩).1).1.height
        = (⟨ILI9488_TFTWIDTH, ILI9488_TFTHEIGHT, 0, 0x48⟩ : Display).height
    ∧ inverseRotation 0 = 0 ∧ inverseRotation 1 = 3 ∧ inverseRotation 3 = 1
    ∧ inverseRotation 2 = 2) :=
  ⟨by decide,
    setRotation_inverse_restores (fun _ => 0x28) 1
      ⟨ILI9488_TFTWIDTH, ILI9488_TFTHEIGHT, 0, 0x48⟩ (by decide)⟩

theorem swapPairs_take (n : Nat) : ∀ l : List Nat,
    swapPairs (l.take (2 * n)) = (swapPairs l).take (2 * n) := by
  induction n with
  | zero => intro l; simp [swapPairs]
  | succ k ih =>
    intro l
    have e : 2 * (k + 1) = 2 * k + 1 + 1 := by ring
    rw [e]
    match l with
    | [] => simp [swapPairs]
    | [a] => simp [swapPairs]
    | a :: b :: rest => simp [swapPairs, List.take_succ_cons, ih rest]

theorem swapPairs_swapPairs : ∀ l : List Nat, swapPairs (swapPairs l) = l
  | [] => by simp [swapPairs]
  | [a] => by simp [swapPairs]
  | a :: b :: rest => by simp [swapPairs, swapPairs_swapPairs rest]

theorem swapPairs_length : ∀ l : List Nat, (swapPairs l).length = l.length
  | [] => by simp [swapPairs]
  | [a] => by simp [swapPairs]
  | a :: b :: rest => by simp [swapPairs, swapPairs_length rest]

/-- C6: for every buffer of `N` 16-bit colours (`2N` bytes), `writePixels`
with `bigEndian = false` on the buffer emits the same byte sequence, `2N`
bytes long, as `writePixels` with `bigEndian = true` on a copy of the buffer
in which the two bytes of every colour are swapped, whichever fixed byte
order the bus requires and whichever blocking mode is chosen. -/
theorem writePixels_swapped_copy (busBigEndian : Bool) (colors : List Nat) (N : Nat)
    (block1 block2 : Bool) (hlen : colors.length = 2 * N) :
    writePixels busBigEndian colors N block1 false
      = writePixels busBigEndian (swapPairs colors) N block2 true
    ∧ (writePixels busBigEndian colors N block1 false).length = 2 * N := by
  unfold writePixels
  cases busBigEndian
  · simp [swapPairs_take, swapPairs_swapPairs, hlen]
  · simp [swapPairs_take, swapPairs_length, hlen]

theorem writePixels_swapped_copy_witness :
    ([0xF8, 0x00, 0x07, 0xE0, 0x00, 0x1F] : List Nat).length = 2 * 3 ∧
    (writePixels true [0xF8, 0x00, 0x07, 0xE0, 0x00, 0x1F] 3 true false
      = writePixels true (swapPairs [0xF8, 0x00, 0x07, 0xE0, 0x00, 0x1F]) 3 true true
    ∧ (writePixels true [0xF8, 0x00, 0x07, 0xE0, 0x00, 0x1F] 3 true false).length
      = 2 * 3) :=
  ⟨by decide,
    writePixels_swapped_copy true [0xF8, 0x00, 0x07, 0xE0, 0x00, 0x1F] 3 true true
      (by decide)⟩

/-- C3: the scenario `initialize()`, `setRotation(0)`,
`writeFillRectPreclipped(0, 0, 320, 480, 0xFFFF)` on the 320x480 panel
issues the reset/init sequence, the MADCTL command (`0x36`), CASET (`0x2A`)
with `(0, 319)`, PASET (`0x2B`) with `(0, 479)`, RAMWR (`0x2C`), then 153600
repeated 16-bit white values; the fill sets the window `(0, 0, 320, 480)`
and asks `writeColor` for exactly `153600 = 320*480` pixels. -/
theorem fillScreenScenario_trace (initSeq : List BusOp) (madctlTable : Nat → Nat)
    (d : Display) :
    fillScreenScenario initSeq madctlTable d =
        initSeq
        ++ [BusOp.command 0x36 [madctlTable 0]]
        ++ [ BusOp.command 0x2A [0x00, 0x00, 0x01, 0x3F],
             BusOp.command 0x2B [0x00, 0x00, 0x01, 0xDF],
             BusOp.command 0x2C [] ]
        ++ List.replicate 153600 (BusOp.data16 0xFFFF)
    ∧ decodeBE16 0x00 0x00 = 0 ∧ decodeBE16 0x01 0x3F = 319
    ∧ decodeBE16 0x01 0xDF = 479
    ∧ writeFillRectPreclipped 0 0 320 480 0xFFFF
        = [Call.setAddrWindow 0 0 320 480, Call.writeColor 0xFFFF 153600]
    ∧ ILI9488_TFTWIDTH = 320 ∧ ILI9488_TFTHEIGHT = 480
    ∧ ILI9488_TFTWIDTH * ILI9488_TFTHEIGHT = 153600
    ∧ ILI9488_WHITE = 0xFFFF
    ∧ ILI9488_MADCTL = 0x36 ∧ ILI9488_CASET = 0x2A ∧ ILI9488_PASET = 0x2B
    ∧ ILI9488_RAMWR = 0x2C := by
  have hfill : writeFillRectPreclipped 0 0 320 480 0xFFFF
      = [Call.setAddrWindow 0 0 320 480, Call.writeColor 0xFFFF 153600] := by decide
  have hwin : setAddrWindow 0 0 320 480 =
      [ BusOp.command 0x2A [0x00, 0x00, 0x01, 0x3F],
        BusOp.command 0x2B [0x00, 0x00, 0x01, 0xDF],
        BusOp.command 0x2C [] ] := by decide
  refine ⟨?_, by decide, by decide, by decide, hfill, rfl, rfl, by decide, rfl,
    rfl, rfl, rfl, rfl⟩
  unfold fillScreenScenario
  rw [hfill]
  simp only [runCalls, runCall, hwin, writeColor, begin, setRotation, List.append_nil,
    List.append_assoc, Nat.zero_mod]
  rfl

end ILI9488
